import Mathlib

/-!
Verification of the SSPI (win32) authentication negotiation engine of the
`kerberos` repository (`src/win32/kerberos_sspi.cc`), as a shallow embedding.

Conventions of the embedding:
* Machine integers are `Nat` (all quantities here are small and unsigned).
* C strings (`SEC_CHAR*`) carrying textual tokens are `List Char`; a possibly
  NULL pointer is an `Option`.
* Raw binary token buffers are `List UInt8`.
* The external SSPI security provider (AcquireCredentialsHandle,
  InitializeSecurityContext, AcceptSecurityContext, QueryContextAttributes,
  EncryptMessage, DecryptMessage, ...) is an oracle record passed to each
  operation, giving the status and payload each provider call returns.
* Each operation returns, besides the `sspi_result` and the updated state, a
  trace of the provider capabilities it invoked (in call order) and, for the
  server step, an allocation/free account of the buffers it handled.
* A local C variable that may be read uninitialized is modelled explicitly:
  an `Option` initialized to `none` (the never-assigned `result` variable of
  `auth_sspi_client_step`), or an extra `garbage` parameter (the stack value
  of `OutSecBuff.pvBuffer` in `auth_sspi_server_step`).
-/

namespace Kerberos

/-- Result codes of the engine: AUTH_GSS_COMPLETE, AUTH_GSS_CONTINUE,
AUTH_GSS_ERROR (from `kerberos_sspi.h`). -/
inductive GssCode where
  | complete
  | cont
  | error
deriving DecidableEq, Repr

/-- `sspi_result`: the discriminated outcome surfaced to the caller. -/
structure SspiResult where
  code : GssCode
  message : Option String
deriving DecidableEq, Repr

/-- `sspi_success_result(ret)`. -/
def sspi_success_result (c : GssCode) : SspiResult := ⟨c, none⟩

/-- `sspi_error_result_with_message(message)`. -/
def sspi_error_result_with_message (m : String) : SspiResult := ⟨.error, some m⟩

/-- `sspi_error_result(errCode, msg)`: the FormatMessage rendering of the
provider status code is abstracted into the operation name string. -/
def sspi_error_result (m : String) : SspiResult := ⟨.error, some m⟩

/-! ## Token codec

`base64_encode` / `base64_decode` delegate the actual transcoding to the OS
APIs `CryptBinaryToStringA` (with `CRYPT_STRING_BASE64|CRYPT_STRING_NOCRLF`)
and `CryptStringToBinaryA` (`CRYPT_STRING_BASE64`), which are not part of
this repository. Modelled from the spec: a standard transport-safe textual
encoding (RFC 4648 base64 with padding, no line breaks) with
`decode(encode(b)) = b`. The arithmetic is done on `Nat` byte values; the
`List UInt8` wrappers below are the engine-facing functions. -/

/-- The 64 characters of the standard base64 alphabet, in value order. -/
def b64alphabet : List Char :=
  ['A', 'B', 'C', 'D', 'E', 'F', 'G', 'H', 'I', 'J', 'K', 'L', 'M',
   'N', 'O', 'P', 'Q', 'R', 'S', 'T', 'U', 'V', 'W', 'X', 'Y', 'Z',
   'a', 'b', 'c', 'd', 'e', 'f', 'g', 'h', 'i', 'j', 'k', 'l', 'm',
   'n', 'o', 'p', 'q', 'r', 's', 't', 'u', 'v', 'w', 'x', 'y', 'z',
   '0', '1', '2', '3', '4', '5', '6', '7', '8', '9', '+', '/']

/-- Character of a 6-bit value. -/
def b64char (n : Nat) : Char := b64alphabet.getD n 'A'

/-- Value of an alphabet character (`none` for a non-alphabet character,
including the pad `=`). -/
def b64index (c : Char) : Option Nat := b64alphabet.findIdx? (· = c)

/-- Base64 encoding of a list of byte values (each `< 256`), with padding. -/
def encNat : List Nat → List Char
  | [] => []
  | [x] =>
      [b64char (x / 4), b64char (x % 4 * 16), '=', '=']
  | [x, y] =>
      [b64char (x / 4), b64char (x % 4 * 16 + y / 16), b64char (y % 16 * 4), '=']
  | x :: y :: z :: rest =>
      b64char (x / 4) :: b64char (x % 4 * 16 + y / 16) ::
      b64char (y % 16 * 4 + z / 64) :: b64char (z % 64) :: encNat rest

/-- Decode one 4-character base64 group (possibly padded) to its bytes. -/
def decGroup (c1 c2 c3 c4 : Char) : Option (List Nat) :=
  match b64index c1, b64index c2 with
  | some n1, some n2 =>
    if c3 = '=' then
      if c4 = '=' then some [n1 * 4 + n2 / 16] else none
    else
      match b64index c3 with
      | some n3 =>
        if c4 = '=' then some [n1 * 4 + n2 / 16, n2 % 16 * 16 + n3 / 4]
        else
          match b64index c4 with
          | some n4 =>
              some [n1 * 4 + n2 / 16, n2 % 16 * 16 + n3 / 4, n3 % 4 * 64 + n4]
          | none => none
      | none => none
  | _, _ => none

/-- Base64 decoding to byte values; strict: length a multiple of 4, padding
only in the final group. -/
def decNat : List Char → Option (List Nat)
  | [] => some []
  | c1 :: c2 :: c3 :: c4 :: rest =>
      if c3 = '=' ∨ c4 = '=' then
        if rest = [] then decGroup c1 c2 c3 c4 else none
      else
        match decGroup c1 c2 c3 c4, decNat rest with
        | some g, some r => some (g ++ r)
        | _, _ => none
  | _ => none

/-- `base64_encode(value, vlen)` on its success path (the allocation-failure
paths, which return NULL, are modelled by the callers' `encodeOk` oracle
flags). -/
def base64_encode (b : List UInt8) : List Char :=
  encNat (b.map UInt8.toNat)

/-- `base64_decode(value, rlen)`: `none` models the NULL return on
malformed input. -/
def base64_decode (s : List Char) : Option (List UInt8) :=
  (decNat s).map (List.map (fun n => UInt8.ofNat n))

/-! ## Data model -/

/-- `SECQOP_WRAP_NO_ENCRYPT` (integrity only, no encryption). -/
def SECQOP_WRAP_NO_ENCRYPT : Nat := 0x80000001

/-- Trace events: the provider capabilities and buffer frees an operation
performs, in call order. -/
inductive Event where
  | b64decode
  | initiateContext
  | acceptContext
  | queryNames
  | queryPkgSizes
  | acquireCredential
  | deleteSecurityContext
  | freeCredentials
  | encryptMessage
  | decryptMessage
  | impersonate
  | freeSpn
  | freeResponse
  | freeUsername
  | freeTargetname
deriving DecidableEq, Repr

/-- `sspi_client_state`. The opaque `CtxtHandle ctx` / `CredHandle cred`
contents are irrelevant to the engine; their validity is tracked by
`haveCtx`/`haveCred` exactly as the C code does. -/
structure sspi_client_state where
  haveCtx : Bool
  haveCred : Bool
  spn : Option String
  response : Option (List Char)
  username : Option String
  qop : Nat
  flags : Nat
  context_complete : Bool
  responseConf : Nat
deriving DecidableEq, Repr

/-- `sspi_server_state`. Handle validity (`SecIsValidHandle`) is tracked by
the two `Valid` booleans. -/
structure sspi_server_state where
  ctxValid : Bool
  credValid : Bool
  response : Option (List Char)
  username : Option String
  targetname : Option String
  context_complete : Bool
deriving DecidableEq, Repr

/-! ## Release operations (`auth_sspi_client_clean` / `auth_sspi_server_clean`) -/

/-- `auth_sspi_client_clean(state)`: returns the cleaned state and the list
of release actions actually performed (handle deletions and buffer frees). -/
def auth_sspi_client_clean (s : sspi_client_state) :
    sspi_client_state × List Event :=
  let (s1, e1) :=
    if s.haveCtx then
      ({ s with haveCtx := false }, [Event.deleteSecurityContext])
    else (s, ([] : List Event))
  let (s2, e2) :=
    if s1.haveCred then
      ({ s1 with haveCred := false }, [Event.freeCredentials])
    else (s1, [])
  let (s3, e3) :=
    match s2.spn with
    | some _ => ({ s2 with spn := none }, [Event.freeSpn])
    | none => (s2, [])
  let (s4, e4) :=
    match s3.response with
    | some _ => ({ s3 with response := none }, [Event.freeResponse])
    | none => (s3, [])
  let (s5, e5) :=
    match s4.username with
    | some _ => ({ s4 with username := none }, [Event.freeUsername])
    | none => (s4, [])
  (s5, e1 ++ e2 ++ e3 ++ e4 ++ e5)

/-- `auth_sspi_server_clean(state)`. -/
def auth_sspi_server_clean (s : sspi_server_state) :
    sspi_server_state × List Event :=
  let (s1, e1) :=
    if s.ctxValid then
      ({ s with ctxValid := false }, [Event.deleteSecurityContext])
    else (s, ([] : List Event))
  let (s2, e2) :=
    if s1.credValid then
      ({ s1 with credValid := false }, [Event.freeCredentials])
    else (s1, [])
  let (s3, e3) :=
    match s2.response with
    | some _ => ({ s2 with response := none }, [Event.freeResponse])
    | none => (s2, [])
  let (s4, e4) :=
    match s3.username with
    | some _ => ({ s3 with username := none }, [Event.freeUsername])
    | none => (s3, [])
  let (s5, e5) :=
    match s4.targetname with
    | some _ => ({ s4 with targetname := none }, [Event.freeTargetname])
    | none => (s4, [])
  (s5, e1 ++ e2 ++ e3 ++ e4 ++ e5)

/-! ## Client step (`auth_sspi_client_step`) -/

/-- Status of `InitializeSecurityContextW` as the engine distinguishes it:
`SEC_E_OK`, `SEC_I_CONTINUE_NEEDED`, or anything else (failure). -/
inductive IscStatus where
  | ok
  | continueNeeded
  | fail
deriving DecidableEq, Repr

/-- Oracle for the provider calls made during one client step. -/
structure ClientStepProvider where
  /-- status of `InitializeSecurityContextW` -/
  iscStatus : IscStatus
  /-- `outBufs[0]` after the call: `none` = `pvBuffer` left NULL -/
  iscOutToken : Option (List UInt8)
  /-- `QueryContextAttributesW(SECPKG_ATTR_NAMES)`: the name, or failure -/
  namesOk : Option String
  /-- allocation success of `wide_to_utf8` -/
  wideOk : Bool
  /-- allocation success of `base64_encode` -/
  encodeOk : Bool
deriving DecidableEq, Repr

/-- Outcome record of one client step call. `result = none` models the C
function returning its local `result` variable without ever assigning it
(reachable: the base64-encode failure path only sets `status` and jumps to
`done`). -/
structure ClientStepOut where
  result : Option SspiResult
  state : sspi_client_state
  calls : List Event
  freedInputToken : Bool
  freedOutputToken : Bool
deriving DecidableEq, Repr

/-- The `done:` label of `auth_sspi_client_step`: frees the decoded input
token (if one was produced) and the provider-allocated output buffer (if
`pvBuffer` was set). -/
def client_step_done (result : Option SspiResult) (s : sspi_client_state)
    (calls : List Event) (inTok outTok : Option (List UInt8)) : ClientStepOut :=
  { result := result, state := s, calls := calls,
    freedInputToken := inTok.isSome, freedOutputToken := outTok.isSome }

/-- `auth_sspi_client_step` after the output token has been handled: the
`status == SEC_E_OK` branch (query the authenticated name) versus the
continue branch. -/
def client_step_after_encode (s2 : sspi_client_state) (p : ClientStepProvider)
    (inTok outTok : Option (List UInt8)) (calls : List Event) : ClientStepOut :=
  if p.iscStatus = IscStatus.ok then
    let calls2 := calls ++ [Event.queryNames]
    match p.namesOk with
    | none =>
        client_step_done (some (sspi_error_result "QueryContextAttributesW"))
          s2 calls2 inTok outTok
    | some name =>
        if p.wideOk then
          client_step_done (some (sspi_success_result GssCode.complete))
            { s2 with username := some name } calls2 inTok outTok
        else
          client_step_done
            (some (sspi_error_result_with_message
              "Unable to allocate memory for username"))
            s2 calls2 inTok outTok
  else
    client_step_done (some (sspi_success_result GssCode.cont)) s2 calls inTok outTok

/-- `auth_sspi_client_step` from the `InitializeSecurityContextW` call on.
On a non-ok/non-continue status: error result, state untouched. Otherwise
`haveCtx` and `context_complete` are set, then a non-empty output token is
base64-encoded into `response`; if that encoding fails only `status` is set
and control jumps to `done` with `result` still unassigned (`none`). -/
def client_step_isc (s : sspi_client_state) (p : ClientStepProvider)
    (inTok : Option (List UInt8)) : ClientStepOut :=
  let calls := [Event.initiateContext]
  if p.iscStatus = IscStatus.fail then
    client_step_done (some (sspi_error_result "InitializeSecurityContext"))
      s calls inTok p.iscOutToken
  else
    let s1 := { s with haveCtx := true, context_complete := true }
    match p.iscOutToken with
    | some tok =>
        if tok.length ≠ 0 then
          if p.encodeOk then
            client_step_after_encode { s1 with response := some (base64_encode tok) }
              p inTok p.iscOutToken calls
          else
            client_step_done none s1 calls inTok p.iscOutToken
        else client_step_after_encode s1 p inTok p.iscOutToken calls
    | none => client_step_after_encode s1 p inTok p.iscOutToken calls

/-- `auth_sspi_client_step(state, challenge, sec_pkg_context_bindings)`.
The channel-bindings argument only shifts buffer indices in the C code and
does not affect any modelled observable, so it is an ignored flag here.
The previous `response` is freed first; the challenge is base64-decoded
only when a security context already exists (`haveCtx`), and a decode
failure returns immediately, before `InitializeSecurityContextW`. -/
def auth_sspi_client_step (s0 : sspi_client_state) (challenge : List Char)
    (_hasBindings : Bool) (p : ClientStepProvider) : ClientStepOut :=
  let s := { s0 with response := none }
  if s.haveCtx then
    match base64_decode challenge with
    | none =>
        { result := some (sspi_error_result_with_message
            "Unable to base64 decode pvBuffer"),
          state := s, calls := [Event.b64decode],
          freedInputToken := false, freedOutputToken := false }
    | some tok =>
        let out := client_step_isc s p (some tok)
        { out with calls := Event.b64decode :: out.calls }
  else client_step_isc s p none

/-! ## Server step (`auth_sspi_server_step`) -/

/-- The buffers `auth_sspi_server_step` handles during one call, for the
allocation/free account. `garbagePtr` stands for the indeterminate stack
value of `OutSecBuff.pvBuffer` before any assignment to it. -/
inductive Buf where
  | decodedInput
  | outputBuffer
  | usernameBuffer
  | garbagePtr
deriving DecidableEq, Repr

/-- Indeterminate stack/heap contents that the C code can end up reading:
the initial value of `OutSecBuff.pvBuffer` (read at `end:` on the path
where `QuerySecurityPackageInfoW` fails, before anything was assigned to
it), and the content of the username buffer when the second `GetUserName`
call fails after the buffer was allocated. -/
structure StackGarbage where
  outPtrNonNull : Bool
  userContent : String
deriving DecidableEq, Repr

/-- Oracle for the provider calls made during one server step. -/
structure ServerStepProvider where
  /-- `QuerySecurityPackageInfoW("Negotiate")`: `cbMaxToken`, or failure -/
  pkgMaxToken : Option Nat
  /-- `malloc(pkgInfo->cbMaxToken)` success -/
  outMallocOk : Bool
  /-- status of `AcceptSecurityContext` -/
  acceptStatus : IscStatus
  /-- `OutSecBuff` content after `AcceptSecurityContext` -/
  acceptOutToken : List UInt8
  /-- `QueryContextAttributesW(SECPKG_ATTR_NATIVE_NAMES)`: client name, or failure -/
  nativeNames : Option String
  /-- allocation success of `wide_to_utf8` -/
  wideOk : Bool
  /-- `ImpersonateSecurityContext` success -/
  impersonateOk : Bool
  /-- `malloc(cbUserName)` success -/
  userMallocOk : Bool
  /-- success of the second `GetUserName` call -/
  getUserNameOk : Bool
  /-- the local name `GetUserName` reports -/
  localUser : String
  /-- allocation success of `base64_encode` -/
  encodeOk : Bool
deriving DecidableEq, Repr

/-- Outcome record of one server step call. `calls` is the trace of
provider capabilities invoked; `allocs`/`frees` account the buffers
obtained and released during the call, in order. -/
structure ServerStepOut where
  ret : SspiResult
  state : sspi_server_state
  calls : List Event
  allocs : List Buf
  frees : List Buf
deriving DecidableEq, Repr

/-- Lines 309-319: `// Clear the context if it is a new request`. If the
previous exchange completed, the security context is discarded and the
stored principal freed, and `context_complete` is reset. -/
def server_reset_if_complete (s : sspi_server_state) :
    sspi_server_state × List Event :=
  if s.context_complete then
    let (s1, e1) :=
      if s.ctxValid then
        ({ s with ctxValid := false }, [Event.deleteSecurityContext])
      else (s, ([] : List Event))
    let (s2, e2) :=
      match s1.username with
      | some _ => ({ s1 with username := none }, [Event.freeUsername])
      | none => (s1, [])
    ({ s2 with context_complete := false }, e1 ++ e2)
  else (s, [])

/-- The `end:` label of `auth_sspi_server_step`: free `InSecBuff.pvBuffer`
if non-NULL (it always is on paths that reach `end:`, since the decode
succeeded), then free `OutSecBuff.pvBuffer` if non-NULL — where
`outPtr` says what that pointer holds at this point: the allocated output
buffer, NULL, or the indeterminate initial stack value. -/
def server_step_end (ret : SspiResult) (s : sspi_server_state)
    (calls : List Event) (allocs : List Buf) (outPtr : Option Buf) :
    ServerStepOut :=
  { ret := ret, state := s, calls := calls, allocs := allocs,
    frees := Buf.decodedInput ::
      (match outPtr with | some b => [b] | none => []) }

/-- `auth_sspi_server_step` from `AcceptSecurityContext` on. The decoded
input and the output buffer are allocated; `OutSecBuff.pvBuffer` holds the
output buffer. -/
def server_step_accept (s : sspi_server_state) (p : ServerStepProvider)
    (g : StackGarbage) : ServerStepOut :=
  let calls := [Event.acceptContext]
  let allocs := [Buf.decodedInput, Buf.outputBuffer]
  match p.acceptStatus with
  | IscStatus.ok =>
      let s3 := { s with ctxValid := true, context_complete := true }
      let calls2 := calls ++ [Event.queryNames]
      match p.nativeNames with
      | some name =>
          if p.wideOk then
            server_step_end (sspi_success_result GssCode.complete)
              { s3 with username := some name } calls2 allocs
              (some Buf.outputBuffer)
          else
            server_step_end
              (sspi_error_result_with_message
                "Unable to allocate memory for username")
              s3 calls2 allocs (some Buf.outputBuffer)
      | none =>
          let calls3 := calls2 ++ [Event.impersonate]
          if p.impersonateOk then
            if p.userMallocOk then
              let allocs2 := allocs ++ [Buf.usernameBuffer]
              if p.getUserNameOk then
                server_step_end (sspi_success_result GssCode.complete)
                  { s3 with username := some p.localUser } calls3 allocs2
                  (some Buf.outputBuffer)
              else
                server_step_end
                  (sspi_error_result_with_message "Unable to obtain username")
                  { s3 with username := some g.userContent } calls3 allocs2
                  (some Buf.outputBuffer)
            else
              server_step_end
                (sspi_error_result_with_message
                  "Unable to allocate memory for username")
                s3 calls3 allocs (some Buf.outputBuffer)
          else
            server_step_end
              (sspi_error_result_with_message "Unable to obtain username")
              s3 calls3 allocs (some Buf.outputBuffer)
  | IscStatus.continueNeeded =>
      let s3 := { s with ctxValid := true }
      if p.encodeOk then
        server_step_end (sspi_success_result GssCode.cont)
          { s3 with response := some (base64_encode p.acceptOutToken) }
          calls allocs (some Buf.outputBuffer)
      else
        server_step_end
          (sspi_error_result_with_message
            "Unable to base64 encode response message")
          s3 calls allocs (some Buf.outputBuffer)
  | IscStatus.fail =>
      let (s3, e3) :=
        if s.ctxValid then
          ({ s with ctxValid := false }, [Event.deleteSecurityContext])
        else (s, ([] : List Event))
      server_step_end (sspi_error_result "AcceptSecurityContext failed")
        s3 (calls ++ e3) allocs (some Buf.outputBuffer)

/-- `auth_sspi_server_step` from `QuerySecurityPackageInfoW` on: the
decoded input token has been allocated. On a sizing failure control jumps
to `end:` with `OutSecBuff.pvBuffer` never assigned — its indeterminate
stack value is read there. -/
def server_step_sized (s : sspi_server_state) (p : ServerStepProvider)
    (g : StackGarbage) : ServerStepOut :=
  let calls := [Event.queryPkgSizes]
  let allocs := [Buf.decodedInput]
  match p.pkgMaxToken with
  | none =>
      server_step_end
        (sspi_error_result_with_message
          "Unable to get max token size for output buffer")
        s calls allocs
        (if g.outPtrNonNull then some Buf.garbagePtr else none)
  | some _ =>
      if p.outMallocOk then
        let out := server_step_accept s p g
        { out with calls := calls ++ out.calls }
      else
        server_step_end
          (sspi_error_result_with_message
            "Unable to allocate memory for output buffer")
          s calls allocs none

/-- Lines 322-325: `// Always clear the old response`. -/
def server_clear_response (s : sspi_server_state) :
    sspi_server_state × List Event :=
  match s.response with
  | some _ => ({ s with response := none }, [Event.freeResponse])
  | none => (s, [])

/-- `auth_sspi_server_step(state, challenge)`. The implicit reset runs
first, then the old response is freed; a NULL or empty challenge is an
immediate error with nothing decoded or allocated; a decode failure is an
immediate error with nothing allocated. -/
def auth_sspi_server_step (s0 : sspi_server_state)
    (challenge : Option (List Char)) (g : StackGarbage)
    (p : ServerStepProvider) : ServerStepOut :=
  let s1 := (server_reset_if_complete s0).1
  let resetEv := (server_reset_if_complete s0).2
  let s2 := (server_clear_response s1).1
  let respEv := (server_clear_response s1).2
  let calls0 := resetEv ++ respEv
  match challenge with
  | some (c :: cs) =>
      (match base64_decode (c :: cs) with
       | none =>
           { ret := sspi_error_result_with_message
               "Unable to base64 decode challenge",
             state := s2, calls := calls0 ++ [Event.b64decode],
             allocs := [], frees := [] }
       | some _ =>
           let out := server_step_sized s2 p g
           { out with calls := calls0 ++ [Event.b64decode] ++ out.calls })
  | _ =>
      { ret := sspi_error_result_with_message
          "No challenge parameter in request from client",
        state := s2, calls := calls0, allocs := [], frees := [] }

/-! ## Client unwrap (`auth_sspi_client_unwrap`) -/

/-- Oracle for `DecryptMessage` and the re-encoding allocation. On
`SEC_E_OK` the provider yields the verified plaintext (the `SECBUFFER_DATA`
buffer) and writes the negotiated protection level into `&state->qop`. -/
structure UnwrapProvider where
  decryptOutcome : Option (List UInt8 × Nat)
  encodeOk : Bool
deriving DecidableEq, Repr

/-- Outcome record of one unwrap call. `qopAtDecrypt` is the value held by
`state->qop` at the moment `DecryptMessage` is invoked (`none` when the
call never happens). -/
structure UnwrapOut where
  result : SspiResult
  state : sspi_client_state
  calls : List Event
  qopAtDecrypt : Option Nat
  freedInput : Bool
deriving DecidableEq, Repr

/-- `auth_sspi_client_unwrap(state, challenge)`. Note the C code resets
`state->qop` to `SECQOP_WRAP_NO_ENCRYPT` only inside the
`state->response != NULL` branch. -/
def auth_sspi_client_unwrap (s0 : sspi_client_state) (challenge : List Char)
    (p : UnwrapProvider) : UnwrapOut :=
  let s :=
    match s0.response with
    | some _ => { s0 with response := none, qop := SECQOP_WRAP_NO_ENCRYPT }
    | none => s0
  if s.haveCtx then
    match base64_decode challenge with
    | none =>
        { result := sspi_error_result_with_message
            "Unable to decode base64 response",
          state := s, calls := [Event.b64decode],
          qopAtDecrypt := none, freedInput := false }
    | some _ =>
        let calls := [Event.b64decode, Event.decryptMessage]
        match p.decryptOutcome with
        | none =>
            { result := sspi_error_result "DecryptMessage", state := s,
              calls := calls, qopAtDecrypt := some s.qop, freedInput := true }
        | some (plain, q) =>
            let s1 := { s with qop := q }
            if plain.length ≠ 0 then
              if p.encodeOk then
                { result := sspi_success_result GssCode.complete,
                  state := { s1 with response := some (base64_encode plain) },
                  calls := calls, qopAtDecrypt := some s.qop, freedInput := true }
              else
                { result := sspi_error_result_with_message
                    "Unable to base64 encode decrypted message",
                  state := s1, calls := calls,
                  qopAtDecrypt := some s.qop, freedInput := true }
            else
              { result := sspi_success_result GssCode.complete, state := s1,
                calls := calls, qopAtDecrypt := some s.qop, freedInput := true }
  else
    { result := sspi_error_result_with_message
        "Uninitialized security context. You must use authGSSClientStep to initialize the security context before calling this function.",
      state := s, calls := [], qopAtDecrypt := none, freedInput := false }

/-! ## Client wrap (`auth_sspi_client_wrap`) -/

/-- Oracle for the provider calls made during one wrap. `cipher` is the
`trailer ++ data ++ padding` concatenation after `EncryptMessage` (its
content is provider-owned and opaque to the engine). -/
structure WrapProvider where
  /-- `QueryContextAttributes(SECPKG_ATTR_SIZES)`: `(cbSecurityTrailer, cbBlockSize)` -/
  sizes : Option (Nat × Nat)
  /-- `malloc(inbufSize)` success -/
  inbufMallocOk : Bool
  /-- `EncryptMessage` success -/
  encryptOk : Bool
  /-- concatenated output after a successful `EncryptMessage` -/
  cipher : List UInt8
  /-- `malloc(outbufSize)` success -/
  outbufMallocOk : Bool
  /-- allocation success of `base64_encode` -/
  encodeOk : Bool
deriving DecidableEq, Repr

/-- Outcome record of one wrap call. `protectPlaintext` is the content of
the `SECBUFFER_DATA` buffer at the moment `EncryptMessage` is invoked;
`protectConf` its confidentiality selector (`fQOP = 0` vs
`SECQOP_WRAP_NO_ENCRYPT`); `dataDecoded` whether `base64_decode(data)` was
invoked. -/
structure WrapOut where
  result : SspiResult
  state : sspi_client_state
  calls : List Event
  protectPlaintext : Option (List UInt8)
  protectConf : Option Bool
  dataDecoded : Bool
deriving DecidableEq, Repr

/-- The plaintext region built in authorization mode (`*user` non-empty):
a 4-byte security-layer header `[1, 0, 0, 0]` followed by `strlen(user)`
bytes of `user`, inside a region of `ulen + 4` bytes whose remainder (if
`ulen > strlen(user)`) keeps its indeterminate malloc content `garbage`.
When the `memcpy_s` bound `ulen + cbBlockSize` is violated the destination
region is zero-filled (annex K behaviour). -/
def wrap_auth_plaintext (user : List UInt8) (ulen block : Nat)
    (garbage : UInt8) : List UInt8 :=
  if user.length ≤ ulen + block then
    ([1, 0, 0, 0] ++ user ++ List.replicate ulen garbage).take (ulen + 4)
  else
    (([1, 0, 0, 0] : List UInt8) ++ List.replicate ulen (0 : UInt8)).take (ulen + 4)

/-- `auth_sspi_client_wrap` from the `EncryptMessage` call on. -/
def wrap_encrypt (s : sspi_client_state) (p : WrapProvider)
    (plaintext : List UInt8) (protect : Bool) (calls : List Event)
    (dataDecoded : Bool) : WrapOut :=
  let calls2 := calls ++ [Event.encryptMessage]
  if p.encryptOk then
    if p.outbufMallocOk then
      if p.encodeOk then
        { result := sspi_success_result GssCode.complete,
          state := { s with response := some (base64_encode p.cipher) },
          calls := calls2, protectPlaintext := some plaintext,
          protectConf := some protect, dataDecoded := dataDecoded }
      else
        { result := sspi_error_result_with_message
            "Unable to base64 decode outbuf",
          state := s, calls := calls2, protectPlaintext := some plaintext,
          protectConf := some protect, dataDecoded := dataDecoded }
    else
      { result := sspi_error_result_with_message
          "Unable to allocate memory for out buffer",
        state := s, calls := calls2, protectPlaintext := some plaintext,
        protectConf := some protect, dataDecoded := dataDecoded }
  else
    { result := sspi_error_result "EncryptMessage", state := s,
      calls := calls2, protectPlaintext := some plaintext,
      protectConf := some protect, dataDecoded := dataDecoded }

/-- `auth_sspi_client_wrap(state, data, user, ulen, protect)`. In
authorization mode (`*user` non-empty) `data` is never consulted; in
pass-through mode `data` is base64-decoded as the plaintext. -/
def auth_sspi_client_wrap (s0 : sspi_client_state) (data : List Char)
    (user : List UInt8) (ulen : Nat) (protect : Bool) (garbage : UInt8)
    (p : WrapProvider) : WrapOut :=
  let s := { s0 with response := none }
  if s.haveCtx then
    let calls := [Event.queryPkgSizes]
    match p.sizes with
    | none =>
        { result := sspi_error_result "QueryContextAttributes", state := s,
          calls := calls, protectPlaintext := none, protectConf := none,
          dataDecoded := false }
    | some (_trailer, block) =>
        if user ≠ [] then
          if p.inbufMallocOk then
            wrap_encrypt s p (wrap_auth_plaintext user ulen block garbage)
              protect calls false
          else
            { result := sspi_error_result_with_message
                "Unable to allocate memory for buffer",
              state := s, calls := calls, protectPlaintext := none,
              protectConf := none, dataDecoded := false }
        else
          match base64_decode data with
          | none =>
              { result := sspi_error_result_with_message
                  "Unable to base64 decode message",
                state := s, calls := calls ++ [Event.b64decode],
                protectPlaintext := none, protectConf := none,
                dataDecoded := true }
          | some dec =>
              if p.inbufMallocOk then
                wrap_encrypt s p dec protect (calls ++ [Event.b64decode]) true
              else
                { result := sspi_error_result_with_message
                    "Unable to allocate memory for buffer",
                  state := s, calls := calls ++ [Event.b64decode],
                  protectPlaintext := none, protectConf := none,
                  dataDecoded := true }
  else
    { result := sspi_error_result_with_message
        "Uninitialized security context. You must use authGSSClientStep to initialize the security context before calling this function.",
      state := s, calls := [], protectPlaintext := none, protectConf := none,
      dataDecoded := false }

/-! ## Concrete inputs used to evaluate the model -/

/-- A client state as `auth_sspi_client_init` leaves it on success: a
credential but no security context yet. -/
def clientStateA : sspi_client_state :=
  { haveCtx := false, haveCred := true, spn := some "service",
    response := none, username := none, qop := SECQOP_WRAP_NO_ENCRYPT,
    flags := 0, context_complete := false, responseConf := 0 }

/-- A client state with an established security context. -/
def clientStateB : sspi_client_state := { clientStateA with haveCtx := true }

/-- A client state with an established context, no pending outbound token,
and a previously negotiated encrypting protection level (`qop = 0`):
reachable by an unwrap whose `DecryptMessage` returned an empty plaintext
with `qop = 0`. -/
def clientStateQ : sspi_client_state := { clientStateB with qop := 0 }

/-- Like `clientStateQ` but with a pending outbound token. -/
def clientStateR : sspi_client_state :=
  { clientStateB with qop := 0, response := some ['x'] }

/-- Provider answering a client step with `SEC_I_CONTINUE_NEEDED` and a
one-byte output token. -/
def providerCont : ClientStepProvider :=
  { iscStatus := IscStatus.continueNeeded, iscOutToken := some [1],
    namesOk := none, wideOk := true, encodeOk := true }

/-- Like `providerCont`, but the base64 encoding of the output token fails
(allocation failure in `base64_encode`). -/
def providerEncodeFail : ClientStepProvider :=
  { providerCont with encodeOk := false }

/-- A server state as `auth_sspi_server_init` leaves it. -/
def serverStateA : sspi_server_state :=
  { ctxValid := false, credValid := true, response := none,
    username := none, targetname := none, context_complete := false }

/-- A server state after a completed exchange. -/
def serverStateC : sspi_server_state :=
  { serverStateA with
    ctxValid := true,
    username := some "alice",
    context_complete := true }

/-- Server-step provider whose `QuerySecurityPackageInfoW` call fails. -/
def pServerSizingFail : ServerStepProvider :=
  { pkgMaxToken := none, outMallocOk := true,
    acceptStatus := IscStatus.fail, acceptOutToken := [],
    nativeNames := none, wideOk := true, impersonateOk := true,
    userMallocOk := true, getUserNameOk := true, localUser := "u",
    encodeOk := true }

/-- Stack garbage where the uninitialized `OutSecBuff.pvBuffer` happens to
be non-NULL. -/
def garbageNonNull : StackGarbage := { outPtrNonNull := true, userContent := "" }

/-- Stack garbage reading as NULL. -/
def garbageNull : StackGarbage := { outPtrNonNull := false, userContent := "" }

/-- Unwrap provider: `DecryptMessage` succeeds with an empty plaintext and
negotiated `qop = 0`. -/
def pUnwrapA : UnwrapProvider := { decryptOutcome := some ([], 0), encodeOk := true }

/-- Wrap provider where every provider call succeeds. -/
def pWrapA : WrapProvider :=
  { sizes := some (2, 3), inbufMallocOk := true, encryptOk := true,
    cipher := [9], outbufMallocOk := true, encodeOk := true }

/-- A well-formed base64 challenge text (decodes to `[0, 0, 0]`). -/
def chA : List Char := ['A', 'A', 'A', 'A']

end Kerberos

namespace Kerberos

theorem b64index_b64char : ∀ n < 64, b64index (b64char n) = some n := by
  decide

theorem b64char_ne_pad : ∀ n < 64, b64char n ≠ '=' := by decide

theorem decGroup_b64char (n1 n2 n3 n4 : Nat)
    (h1 : n1 < 64) (h2 : n2 < 64) (h3 : n3 < 64) (h4 : n4 < 64) :
    decGroup (b64char n1) (b64char n2) (b64char n3) (b64char n4) =
      some [n1 * 4 + n2 / 16, n2 % 16 * 16 + n3 / 4, n3 % 4 * 64 + n4] := by
  simp [decGroup, b64index_b64char _ h1, b64index_b64char _ h2,
    b64index_b64char _ h3, b64index_b64char _ h4, b64char_ne_pad _ h3,
    b64char_ne_pad _ h4]

theorem decNat_encNat (xs : List Nat) (h : ∀ x ∈ xs, x < 256) :
    decNat (encNat xs) = some xs := by
  induction xs using encNat.induct with
  | case1 => rfl
  | case2 x =>
      have hx : x < 256 := h x (by simp)
      simp [encNat, decNat, decGroup,
        b64index_b64char (x / 4) (by omega),
        b64index_b64char (x % 4 * 16) (by omega)]
      omega
  | case3 x y =>
      have hx : x < 256 := h x (by simp)
      have hy : y < 256 := h y (by simp)
      simp [encNat, decNat, decGroup,
        b64index_b64char (x / 4) (by omega),
        b64index_b64char (x % 4 * 16 + y / 16) (by omega),
        b64index_b64char (y % 16 * 4) (by omega),
        b64char_ne_pad (y % 16 * 4) (by omega)]
      omega
  | case4 x y z rest ih =>
      have hx : x < 256 := h x (by simp)
      have hy : y < 256 := h y (by simp)
      have hz : z < 256 := h z (by simp)
      have hrest : ∀ a ∈ rest, a < 256 := fun a ha => h a (by simp [ha])
      rw [encNat]
      rw [decNat]
      rw [if_neg, decGroup_b64char _ _ _ _ (by omega) (by omega) (by omega) (by omega),
        ih hrest]
      · simp only [List.cons_append, List.nil_append, Option.some.injEq]
        have e1 : x / 4 * 4 + (x % 4 * 16 + y / 16) / 16 = x := by omega
        have e2 : (x % 4 * 16 + y / 16) % 16 * 16 + (y % 16 * 4 + z / 64) / 4 = y := by
          omega
        have e3 : (y % 16 * 4 + z / 64) % 4 * 64 + z % 64 = z := by omega
        rw [e1, e2, e3]
      · push_neg
        exact ⟨b64char_ne_pad _ (by omega), b64char_ne_pad _ (by omega)⟩

theorem uint8_ofNat_toNat (x : UInt8) : UInt8.ofNat x.toNat = x := by
  apply UInt8.ext
  show x.toNat % 256 = x.toNat
  exact Nat.mod_eq_of_lt (UInt8.toNat_lt x)

theorem base64_roundtrip (b : List UInt8) :
    base64_decode (base64_encode b) = some b := by
  unfold base64_decode base64_encode
  rw [decNat_encNat _ (by
    intro x hx; simp at hx; obtain ⟨a, _, rfl⟩ := hx; exact UInt8.toNat_lt a)]
  rw [Option.map_some']
  rw [List.map_map]
  congr 1
  have : ((fun n => UInt8.ofNat n) ∘ UInt8.toNat) = id := by
    funext x; exact uint8_ofNat_toNat x
  rw [this, List.map_id]

theorem b64char_mem (n : Nat) : b64char n ∈ b64alphabet := by
  by_cases h : n < b64alphabet.length
  · rw [b64char, List.getD_eq_getElem _ _ h]
    exact List.getElem_mem h
  · rw [b64char, List.getD_eq_default _ _ (Nat.le_of_not_lt h)]
    decide

theorem encNat_chars (xs : List Nat) :
    ∀ c ∈ encNat xs, c ∈ b64alphabet ∨ c = '=' := by
  induction xs using encNat.induct with
  | case1 => intro c hc; simp [encNat] at hc
  | case2 x =>
      intro c hc
      simp [encNat] at hc
      rcases hc with rfl | rfl | rfl
      · exact Or.inl (b64char_mem _)
      · exact Or.inl (b64char_mem _)
      · exact Or.inr rfl
  | case3 x y =>
      intro c hc
      simp [encNat] at hc
      rcases hc with rfl | rfl | rfl | rfl
      · exact Or.inl (b64char_mem _)
      · exact Or.inl (b64char_mem _)
      · exact Or.inl (b64char_mem _)
      · exact Or.inr rfl
  | case4 x y z rest ih =>
      intro c hc
      simp [encNat] at hc
      rcases hc with rfl | rfl | rfl | rfl | h
      · exact Or.inl (b64char_mem _)
      · exact Or.inl (b64char_mem _)
      · exact Or.inl (b64char_mem _)
      · exact Or.inl (b64char_mem _)
      · exact ih c h

theorem base64_encode_no_newline (b : List UInt8) :
    ∀ c ∈ base64_encode b, c ≠ '\n' ∧ c ≠ '\r' := by
  intro c hc
  rcases encNat_chars _ c hc with h | h
  · constructor
    · intro he; subst he; revert h; decide
    · intro he; subst he; revert h; decide
  · subst h; exact ⟨by decide, by decide⟩

/-- C7: for every byte sequence `b` — including the empty sequence and
sequences containing zero bytes — decoding the textual encoding of `b`
yields `b` again, and the encoding of `b` contains no line breaks. -/
theorem C7_base64_roundtrip_no_linebreaks (b : List UInt8) :
    base64_decode (base64_encode b) = some b ∧
      ∀ c ∈ base64_encode b, c ≠ '\n' ∧ c ≠ '\r' :=
  ⟨base64_roundtrip b, base64_encode_no_newline b⟩

/-- C8: releasing a client or server context twice leaves exactly the state
of releasing it once, and the second release performs no release action at
all (no handle deletion, no buffer free). -/
theorem C8_release_idempotent :
    (∀ s : sspi_client_state,
       auth_sspi_client_clean (auth_sspi_client_clean s).1 =
         ((auth_sspi_client_clean s).1, ([] : List Event))) ∧
      (∀ s : sspi_server_state,
        auth_sspi_server_clean (auth_sspi_server_clean s).1 =
          ((auth_sspi_server_clean s).1, ([] : List Event))) := by
  constructor
  · intro s
    obtain ⟨hCtx, hCred, spn, resp, user, qop, flags, cc, rc⟩ := s
    cases hCtx <;> cases hCred <;> cases spn <;> cases resp <;> cases user <;> rfl
  · intro s
    obtain ⟨hCtx, hCred, resp, user, tn, cc⟩ := s
    cases hCtx <;> cases hCred <;> cases resp <;> cases user <;> cases tn <;> rfl

theorem client_step_after_encode_calls (s2 : sspi_client_state)
    (p : ClientStepProvider) (i o : Option (List UInt8)) (calls : List Event) :
    (client_step_after_encode s2 p i o calls).calls = calls ∨
      (client_step_after_encode s2 p i o calls).calls =
        calls ++ [Event.queryNames] := by
  unfold client_step_after_encode client_step_done
  by_cases h : p.iscStatus = IscStatus.ok
  · rw [if_pos h]
    cases p.namesOk
    · right; simp
    · by_cases hw : p.wideOk <;> simp [hw]
  · rw [if_neg h]
    left; simp

theorem client_step_isc_calls (s : sspi_client_state) (p : ClientStepProvider)
    (t : Option (List UInt8)) :
    (client_step_isc s p t).calls = [Event.initiateContext] ∨
      (client_step_isc s p t).calls =
        [Event.initiateContext, Event.queryNames] := by
  unfold client_step_isc
  by_cases hf : p.iscStatus = IscStatus.fail
  · rw [if_pos hf]; left; rfl
  · rw [if_neg hf]
    cases p.iscOutToken with
    | none =>
        simpa using client_step_after_encode_calls _ p t none [Event.initiateContext]
    | some tok =>
        dsimp only
        by_cases ht : tok.length ≠ 0
        · rw [if_pos ht]
          by_cases he : p.encodeOk
          · rw [if_pos he]
            simpa using
              client_step_after_encode_calls _ p t (some tok) [Event.initiateContext]
          · rw [if_neg he]
            left; rfl
        · rw [if_neg ht]
          simpa using
            client_step_after_encode_calls _ p t (some tok) [Event.initiateContext]

/-- C10: the client step base64-decodes the challenge if and only if a
security context already exists (the first call, `haveCtx = false`, never
decodes), and when the decode fails the step returns the decode error
before `InitializeSecurityContextW` is ever called. -/
theorem C10_client_step_decode_iff_ctx (s : sspi_client_state) (ch : List Char)
    (b : Bool) (p : ClientStepProvider) :
    (Event.b64decode ∈ (auth_sspi_client_step s ch b p).calls ↔ s.haveCtx = true) ∧
      (s.haveCtx = true → base64_decode ch = none →
        (auth_sspi_client_step s ch b p).result =
            some (sspi_error_result_with_message "Unable to base64 decode pvBuffer") ∧
          Event.initiateContext ∉ (auth_sspi_client_step s ch b p).calls) := by
  unfold auth_sspi_client_step
  dsimp only
  by_cases hc : s.haveCtx = true
  · rw [if_pos hc]
    cases hd : base64_decode ch with
    | none => simp [hc]
    | some tok =>
        constructor
        · simp [hc]
        · intro _ hcontra
          exact absurd hcontra (by simp)
  · rw [if_neg hc]
    constructor
    · rcases client_step_isc_calls _ p none with h | h <;> rw [h] <;> simp [hc]
    · intro h1; exact absurd h1 hc

/-- C10 witness: a client context with an established security context and
a malformed challenge hits the decode-error path before the provider. -/
theorem C10_witness :
    clientStateB.haveCtx = true ∧ base64_decode ['!'] = none ∧
      ((auth_sspi_client_step clientStateB ['!'] false providerCont).result =
          some (sspi_error_result_with_message "Unable to base64 decode pvBuffer") ∧
        Event.initiateContext ∉
          (auth_sspi_client_step clientStateB ['!'] false providerCont).calls) :=
  ⟨rfl, rfl,
    (C10_client_step_decode_iff_ctx clientStateB ['!'] false providerCont).2 rfl rfl⟩

/-- C1 (code-bug evidence): on a fresh post-init client context, a step
answered with `SEC_I_CONTINUE_NEEDED` returns the `Continue` result yet
leaves `context_complete = true` — the code sets the flag unconditionally
after the status check, where the claim (and the server-side sibling code)
requires it to remain false until terminal success. -/
theorem C1_continue_result_sets_complete :
    (auth_sspi_client_step clientStateA [] false providerCont).result =
        some (sspi_success_result GssCode.cont) ∧
      (auth_sspi_client_step clientStateA [] false providerCont).state.context_complete
        = true :=
  ⟨rfl, rfl⟩

/-- C4 (code-bug evidence): on the path where the provider's output token
is produced but its base64 encoding fails, `auth_sspi_client_step` jumps to
`done:` without ever assigning its local `result` variable and returns it —
the returned value is indeterminate (`none` in the model), not a defined
`Error` outcome. -/
theorem C4_encode_failure_result_unassigned :
    (auth_sspi_client_step clientStateA [] false providerEncodeFail).result = none :=
  rfl

end Kerberos

namespace Kerberos

theorem server_reset_events (s : sspi_server_state) :
    ∀ e ∈ (server_reset_if_complete s).2,
      e = Event.deleteSecurityContext ∨ e = Event.freeUsername := by
  obtain ⟨cv, crv, resp, user, tn, cc⟩ := s
  cases cc <;> cases cv <;> cases user <;> simp [server_reset_if_complete]

theorem server_clear_response_events (s : sspi_server_state) :
    ∀ e ∈ (server_clear_response s).2, e = Event.freeResponse := by
  obtain ⟨cv, crv, resp, user, tn, cc⟩ := s
  cases resp <;> simp [server_clear_response]

theorem server_reset_state (s : sspi_server_state)
    (h : s.context_complete = true) :
    (server_reset_if_complete s).1.ctxValid = false ∧
      (server_reset_if_complete s).1.username = none ∧
      (server_reset_if_complete s).1.context_complete = false := by
  obtain ⟨cv, crv, resp, user, tn, cc⟩ := s
  simp only at h
  subst h
  cases cv <;> cases user <;> simp [server_reset_if_complete]

/-- C2: a server step with a NULL or empty challenge returns an error
without the provider being consulted: no credential acquisition, no
package-sizing query, no `AcceptSecurityContext`, and not even a decode. -/
theorem C2_server_step_null_or_empty_challenge (s : sspi_server_state)
    (g : StackGarbage) (p : ServerStepProvider) (ch : Option (List Char))
    (h : ch = none ∨ ch = some []) :
    (auth_sspi_server_step s ch g p).ret.code = GssCode.error ∧
      Event.acquireCredential ∉ (auth_sspi_server_step s ch g p).calls ∧
      Event.queryPkgSizes ∉ (auth_sspi_server_step s ch g p).calls ∧
      Event.acceptContext ∉ (auth_sspi_server_step s ch g p).calls ∧
      Event.b64decode ∉ (auth_sspi_server_step s ch g p).calls := by
  have key : ∀ e ∈ (server_reset_if_complete s).2 ++
      (server_clear_response (server_reset_if_complete s).1).2,
      e ≠ Event.acquireCredential ∧ e ≠ Event.queryPkgSizes ∧
        e ≠ Event.acceptContext ∧ e ≠ Event.b64decode := by
    intro e he
    rcases List.mem_append.1 he with h1 | h1
    · rcases server_reset_events s e h1 with rfl | rfl <;>
        exact ⟨by decide, by decide, by decide, by decide⟩
    · have h2 := server_clear_response_events _ e h1
      subst h2
      exact ⟨by decide, by decide, by decide, by decide⟩
  rcases h with rfl | rfl <;>
    · unfold auth_sspi_server_step
      dsimp only
      refine ⟨rfl, ?_, ?_, ?_, ?_⟩ <;> intro hin
      · exact (key _ hin).1 rfl
      · exact (key _ hin).2.1 rfl
      · exact (key _ hin).2.2.1 rfl
      · exact (key _ hin).2.2.2 rfl

end Kerberos

namespace Kerberos

/-- C2 witness: the empty challenge on a fresh server context. -/
theorem C2_witness :
    (auth_sspi_server_step serverStateA (some []) garbageNull
        pServerSizingFail).ret.code = GssCode.error ∧
      Event.acquireCredential ∉ (auth_sspi_server_step serverStateA (some [])
        garbageNull pServerSizingFail).calls ∧
      Event.queryPkgSizes ∉ (auth_sspi_server_step serverStateA (some [])
        garbageNull pServerSizingFail).calls ∧
      Event.acceptContext ∉ (auth_sspi_server_step serverStateA (some [])
        garbageNull pServerSizingFail).calls ∧
      Event.b64decode ∉ (auth_sspi_server_step serverStateA (some [])
        garbageNull pServerSizingFail).calls :=
  C2_server_step_null_or_empty_challenge serverStateA garbageNull
    pServerSizingFail (some []) (Or.inr rfl)

/-- C5 (code-bug evidence): on the path where `QuerySecurityPackageInfoW`
fails after the challenge was decoded, the `end:` block reads the
never-assigned `OutSecBuff.pvBuffer`; when that stack value is non-NULL a
buffer that was never allocated during the call is freed. -/
theorem C5_sizing_failure_frees_never_allocated :
    (auth_sspi_server_step serverStateA (some chA) garbageNonNull
        pServerSizingFail).allocs = [Buf.decodedInput] ∧
      (auth_sspi_server_step serverStateA (some chA) garbageNonNull
        pServerSizingFail).frees = [Buf.decodedInput, Buf.garbagePtr] ∧
      Buf.garbagePtr ∉ (auth_sspi_server_step serverStateA (some chA)
        garbageNonNull pServerSizingFail).allocs ∧
      Buf.garbagePtr ∈ (auth_sspi_server_step serverStateA (some chA)
        garbageNonNull pServerSizingFail).frees := by
  have ha : (auth_sspi_server_step serverStateA (some chA) garbageNonNull
      pServerSizingFail).allocs = [Buf.decodedInput] := rfl
  have hf : (auth_sspi_server_step serverStateA (some chA) garbageNonNull
      pServerSizingFail).frees = [Buf.decodedInput, Buf.garbagePtr] := rfl
  refine ⟨ha, hf, ?_, ?_⟩
  · rw [ha]; decide
  · rw [hf]; decide

/-- C6: a server step on a completed context with a non-empty challenge
first runs the implicit reset — which discards the security context,
clears the stored principal and resets `context_complete` — and the whole
call's trace begins with that reset's events (which are only context
deletion and principal free, no other provider capability). -/
theorem C6_server_step_resets_before_provider (s : sspi_server_state)
    (c : Char) (cs : List Char) (g : StackGarbage) (p : ServerStepProvider)
    (h : s.context_complete = true) :
    (server_reset_if_complete s).1.ctxValid = false ∧
      (server_reset_if_complete s).1.username = none ∧
      (server_reset_if_complete s).1.context_complete = false ∧
      (∀ e ∈ (server_reset_if_complete s).2,
        e = Event.deleteSecurityContext ∨ e = Event.freeUsername) ∧
      ∃ rest, (auth_sspi_server_step s (some (c :: cs)) g p).calls =
        (server_reset_if_complete s).2 ++ rest := by
  obtain ⟨h1, h2, h3⟩ := server_reset_state s h
  refine ⟨h1, h2, h3, server_reset_events s, ?_⟩
  unfold auth_sspi_server_step
  dsimp only
  cases base64_decode (c :: cs) with
  | none =>
      exact ⟨(server_clear_response (server_reset_if_complete s).1).2 ++
        [Event.b64decode], by simp [List.append_assoc]⟩
  | some tok =>
      exact ⟨(server_clear_response (server_reset_if_complete s).1).2 ++
        Event.b64decode ::
          (server_step_sized (server_clear_response
            (server_reset_if_complete s).1).1 p g).calls,
        by simp [List.append_assoc]⟩

/-- C6 witness: a completed server context, stepped with a fresh non-empty
challenge, is reset first. -/
theorem C6_witness :
    serverStateC.context_complete = true ∧
      ((server_reset_if_complete serverStateC).1.ctxValid = false ∧
        (server_reset_if_complete serverStateC).1.username = none ∧
        (server_reset_if_complete serverStateC).1.context_complete = false ∧
        (∀ e ∈ (server_reset_if_complete serverStateC).2,
          e = Event.deleteSecurityContext ∨ e = Event.freeUsername) ∧
        ∃ rest,
          (auth_sspi_server_step serverStateC (some ('A' :: ['A', 'A', 'A']))
              garbageNull pServerSizingFail).calls =
            (server_reset_if_complete serverStateC).2 ++ rest) :=
  ⟨rfl, C6_server_step_resets_before_provider serverStateC 'A' ['A', 'A', 'A']
    garbageNull pServerSizingFail rfl⟩

end Kerberos

namespace Kerberos

/-- C3 counterexample: an established client context with no pending
outbound token (`response = NULL`) and a previously negotiated encrypting
protection level (`qop = 0`) invokes `DecryptMessage` with `qop` still `0`:
the reset to `SECQOP_WRAP_NO_ENCRYPT` did not happen, because the code
performs it only inside the `state->response != NULL` branch. -/
theorem C3_counterexample_no_reset_without_pending_token :
    clientStateQ.haveCtx = true ∧
      (auth_sspi_client_unwrap clientStateQ chA pUnwrapA).qopAtDecrypt = some 0 ∧
      0 ≠ SECQOP_WRAP_NO_ENCRYPT :=
  ⟨rfl, rfl, by decide⟩

/-- C3 (amended): on an unwrap call, whenever `DecryptMessage` is reached
the `qop` it sees equals the no-encryption default if an outbound token was
pending at entry (that branch also resets `qop`), and otherwise equals the
context's prior `qop`, unchanged. -/
theorem C3_amended_qop_reset_only_with_pending_token (s : sspi_client_state)
    (ch : List Char) (p : UnwrapProvider) (v : Nat)
    (h : (auth_sspi_client_unwrap s ch p).qopAtDecrypt = some v) :
    v = if s.response.isSome then SECQOP_WRAP_NO_ENCRYPT else s.qop := by
  obtain ⟨hCtx, hCred, spn, resp, user, qop, flags, cc, rc⟩ := s
  unfold auth_sspi_client_unwrap at h
  cases resp <;> cases hCtx <;> dsimp only at h ⊢ <;>
    (try split at h) <;> (try split at h) <;> (try split at h) <;>
    (try split at h) <;> (try split at h) <;> simp_all

/-- C3 amended witness: with a pending outbound token the qop is reset to
the default before `DecryptMessage`. -/
theorem C3_amended_witness :
    (auth_sspi_client_unwrap clientStateR chA pUnwrapA).qopAtDecrypt =
        some SECQOP_WRAP_NO_ENCRYPT ∧
      SECQOP_WRAP_NO_ENCRYPT =
        (if clientStateR.response.isSome then SECQOP_WRAP_NO_ENCRYPT
          else clientStateR.qop) :=
  ⟨rfl, C3_amended_qop_reset_only_with_pending_token clientStateR chA pUnwrapA
    SECQOP_WRAP_NO_ENCRYPT rfl⟩

theorem wrap_encrypt_out (s : sspi_client_state) (p : WrapProvider)
    (plaintext : List UInt8) (protect : Bool) (calls : List Event) (dd : Bool) :
    (wrap_encrypt s p plaintext protect calls dd).protectPlaintext =
        some plaintext ∧
      (wrap_encrypt s p plaintext protect calls dd).dataDecoded = dd := by
  unfold wrap_encrypt
  by_cases h1 : p.encryptOk <;> by_cases h2 : p.outbufMallocOk <;>
    by_cases h3 : p.encodeOk <;> simp [h1, h2, h3]

theorem wrap_auth_plaintext_eq (user : List UInt8) (block : Nat) (g : UInt8) :
    wrap_auth_plaintext user user.length block g = [1, 0, 0, 0] ++ user := by
  unfold wrap_auth_plaintext
  rw [if_pos (by omega)]
  exact List.take_left' (by simp +arith)

/-- C9: in authorization mode (non-empty `user`, `ulen = strlen(user)`),
the plaintext handed to `EncryptMessage` is exactly the 4-byte header
`[1, 0, 0, 0]` (no security layer, reserved bytes zero) followed by the raw
bytes of `user`, of total size `ulen + 4`; and `data` is never decoded. -/
theorem C9_wrap_authorization_plaintext (s : sspi_client_state)
    (data : List Char) (user : List UInt8) (ulen : Nat) (protect : Bool)
    (g : UInt8) (p : WrapProvider) (h1 : user ≠ []) (h2 : ulen = user.length) :
    (auth_sspi_client_wrap s data user ulen protect g p).dataDecoded = false ∧
      ∀ pt, (auth_sspi_client_wrap s data user ulen protect g p).protectPlaintext
          = some pt →
        pt = [1, 0, 0, 0] ++ user ∧ pt.length = ulen + 4 := by
  subst h2
  unfold auth_sspi_client_wrap
  dsimp only
  by_cases hc : s.haveCtx = true
  · rw [if_pos hc]
    cases p.sizes with
    | none => exact ⟨rfl, fun pt hpt => absurd hpt (by simp)⟩
    | some tb =>
        obtain ⟨trailer, block⟩ := tb
        dsimp only
        rw [if_pos h1]
        by_cases hm : p.inbufMallocOk
        · rw [if_pos hm]
          refine ⟨(wrap_encrypt_out _ p _ protect _ false).2, ?_⟩
          intro pt hpt
          rw [(wrap_encrypt_out _ p _ protect _ false).1] at hpt
          have hpt2 : wrap_auth_plaintext user user.length block g = pt :=
            Option.some_injective _ hpt
          subst hpt2
          rw [wrap_auth_plaintext_eq]
          refine ⟨rfl, ?_⟩
          simp [wrap_auth_plaintext_eq]
        · rw [if_neg hm]
          exact ⟨rfl, fun pt hpt => absurd hpt (by simp)⟩
  · rw [if_neg hc]
    exact ⟨rfl, fun pt hpt => absurd hpt (by simp)⟩

/-- C9 witness: wrapping with `user = [97]` hands the provider exactly
`[1, 0, 0, 0, 97]` and never decodes `data`. -/
theorem C9_witness :
    ([97] : List UInt8) ≠ [] ∧ (1 : Nat) = ([97] : List UInt8).length ∧
      (auth_sspi_client_wrap clientStateB [] [97] 1 true 0 pWrapA).dataDecoded
        = false ∧
      (auth_sspi_client_wrap clientStateB [] [97] 1 true 0 pWrapA).protectPlaintext
        = some ([1, 0, 0, 0] ++ [97]) := by
  refine ⟨by decide, by decide, ?_, ?_⟩
  · exact (C9_wrap_authorization_plaintext clientStateB [] [97] 1 true 0 pWrapA
      (by decide) (by decide)).1
  · rfl

end Kerberos
